import Mathlib

/-!
Verification of the CalHacks25 auto-replenishment system.

Two groups of definitions appear below.

1. The detection-intent-order coordinator (`register_detection`,
   `record_decision`, product catalog).  The backend service implementing the
   coordinator is not present in the repository snapshot (only its callers and
   architecture documents are), so these definitions are modelled from the
   specification's contracts and checked for internal consistency.

2. The Lens Studio client helpers from
   `lens-studio/Assets/Scripts/TS/VisionOpenAI.ts` (`addToHistory`,
   `getBackendUrl`), embedded directly from the TypeScript source.  Strings
   are modelled as lists of characters.
-/

/-- Modelled from the spec: ordered fill-level enum of a `DetectionEvent`,
`FULL < HALF < NEARLY_EMPTY < EMPTY`, plus `UNKNOWN` which is off the scale. -/
inductive FillLevel where
  | FULL
  | HALF
  | NEARLY_EMPTY
  | EMPTY
  | UNKNOWN
deriving DecidableEq, Repr

/-- Position of a fill level on the ordered scale; `UNKNOWN` has none. -/
def fillRank : FillLevel → Option Nat
  | .FULL => some 0
  | .HALF => some 1
  | .NEARLY_EMPTY => some 2
  | .EMPTY => some 3
  | .UNKNOWN => none

/-- Modelled from the spec: detection confidence enum. -/
inductive Confidence where
  | LOW
  | MEDIUM
  | HIGH
deriving DecidableEq, Repr

/-- Modelled from the spec: decision channel enum. -/
inductive Channel where
  | VOICE
  | GESTURE
  | OTHER
deriving DecidableEq, Repr

/-- Modelled from the spec: intent state machine statuses. -/
inductive IntentStatus where
  | PENDING
  | ACCEPTED
  | ORDER_SUBMITTED
  | ORDER_CONFIRMED
  | ORDER_FAILED
  | REJECTED
  | EXPIRED
deriving DecidableEq, Repr

/-- Modelled from the spec: statuses of an `OrderRecord`. -/
inductive OrderStatus where
  | SUBMITTED
  | CONFIRMED
  | FAILED
deriving DecidableEq, Repr

/-- Modelled from the spec: domain error surfaced by catalog misses. -/
inductive DomainError where
  | UnknownProduct
deriving DecidableEq, Repr

/-- Modelled from the spec: error kinds of `record_decision`. -/
inductive DecisionError where
  | NotFound
  | AlreadyDecided
  | Expired
deriving DecidableEq, Repr

/-- Modelled from the spec: an orderable variant of a product. -/
structure Variant where
  sku : String
  label : String
  size : Option String
deriving DecidableEq, Repr

/-- Modelled from the spec: a catalog product. -/
structure Product where
  id : String
  object_class : String
  reorder_threshold : FillLevel
  default_variant : Variant
  variants : List Variant
deriving DecidableEq, Repr

/-- Modelled from the spec: `lookup(object_class) → Product | NotFound`. -/
def lookupProduct (catalog : List Product) (oc : String) : Option Product :=
  catalog.find? (fun p => p.object_class == oc)

/-- Modelled from the spec: `meets_threshold(object_class, fill_level)` core
comparison, true iff the fill level is at or past the product's reorder
threshold on the ordered fill-level scale (ties qualify). -/
def meets_threshold (reorder_threshold fill_level : FillLevel) : Bool :=
  match fillRank fill_level, fillRank reorder_threshold with
  | some fl, some th => decide (th ≤ fl)
  | _, _ => false

/-- Modelled from the spec: a detection event from the CV collaborator. -/
structure DetectionEvent where
  event_id : String
  device_id : String
  object_class : String
  fill_level : FillLevel
  confidence : Confidence
  captured_at_ms : Nat
deriving DecidableEq, Repr

/-- Modelled from the spec: a recorded user decision. -/
structure Decision where
  channel : Channel
  accepted : Bool
  decided_at_ms : Nat
deriving DecidableEq, Repr

/-- Modelled from the spec: an order record populated from the Commerce
Provider's response. -/
structure OrderRecord where
  order_id : String
  intent_id : String
  sku : String
  quantity : Nat
  status : OrderStatus
  vendor_order_id : Option String
  submitted_at_ms : Nat
deriving DecidableEq, Repr

/-- Modelled from the spec: the mutable per-prompt record of the coordinator. -/
structure IntentState where
  intent_id : String
  device_id : String
  object_class : String
  product_id : String
  variant_sku : String
  created_at_ms : Nat
  expires_at_ms : Nat
  decision : Option Decision
  order : Option OrderRecord
  status : IntentStatus
deriving DecidableEq, Repr

/-- Modelled from the spec: response shape of `register_detection`; the
optional domain error reports a catalog miss to the caller as a value. -/
structure RegisterResponse where
  should_prompt : Bool
  intent_id : Option String
  retry_after_ms : Option Int
  error : Option DomainError
deriving DecidableEq, Repr

/-- A status is terminal once decided, ordered, or expired. -/
def isTerminal : IntentStatus → Bool
  | .ORDER_CONFIRMED => true
  | .ORDER_FAILED => true
  | .REJECTED => true
  | .EXPIRED => true
  | _ => false

/-- Modelled from the spec: an intent is active when it is non-terminal and,
while still `PENDING`, its TTL has not elapsed. -/
def isActive (i : IntentState) (now : Nat) : Bool :=
  !(isTerminal i.status) &&
    (i.status != IntentStatus.PENDING || decide (now ≤ i.expires_at_ms))

/-- Modelled from the spec: the coordinator's store — the catalog, the intent
map, the per-device dedup cache of `event_id`s with their prior responses, the
intent TTL, and a fresh-id counter. -/
structure CoordState where
  catalog : List Product
  intents : List IntentState
  seen : List ((String × String) × RegisterResponse)
  intent_ttl_ms : Nat
  next_intent_seq : Nat
deriving DecidableEq, Repr

/-- Cached response for a `(device_id, event_id)` pair, if any. -/
def findSeen (seen : List ((String × String) × RegisterResponse))
    (d eid : String) : Option RegisterResponse :=
  (seen.find? (fun entry => entry.1.1 == d && entry.1.2 == eid)).map Prod.snd

/-- The active (non-terminal, non-expired) intent at a
`(device_id, object_class)` key, if any. -/
def findActive (intents : List IntentState) (d oc : String) (now : Nat) :
    Option IntentState :=
  intents.find? (fun i => i.device_id == d && i.object_class == oc && isActive i now)

/-- Generated opaque intent identifier. -/
def mkIntentId (n : Nat) : String :=
  "intent-" ++ toString n

/-- Modelled from the spec: `register_detection(event)` of the Intent
Coordinator, which is absent from the repository snapshot.  Steps, in order:
duplicate `event_id` for the device replays the cached prior response;
an unknown `object_class` returns `should_prompt=false` with the
`UnknownProduct` domain error as a value; a fill level below the product's
reorder threshold returns `should_prompt=false` with no intent; an active
intent at the `(device_id, object_class)` key suppresses the prompt and
returns the existing intent id with the remaining TTL; otherwise a fresh
`PENDING` intent with `expires_at_ms = now + intent_ttl_ms` is created. -/
def register_detection (s : CoordState) (e : DetectionEvent) (now : Nat) :
    RegisterResponse × CoordState :=
  match findSeen s.seen e.device_id e.event_id with
  | some r => (r, s)
  | none =>
    match lookupProduct s.catalog e.object_class with
    | none =>
      let r : RegisterResponse := ⟨false, none, none, some DomainError.UnknownProduct⟩
      (r, { s with seen := ((e.device_id, e.event_id), r) :: s.seen })
    | some p =>
      if meets_threshold p.reorder_threshold e.fill_level then
        match findActive s.intents e.device_id e.object_class now with
        | some i =>
          let r : RegisterResponse :=
            ⟨false, some i.intent_id, some ((i.expires_at_ms : Int) - (now : Int)), none⟩
          (r, { s with seen := ((e.device_id, e.event_id), r) :: s.seen })
        | none =>
          let iid := mkIntentId s.next_intent_seq
          let intent : IntentState :=
            { intent_id := iid
              device_id := e.device_id
              object_class := e.object_class
              product_id := p.id
              variant_sku := p.default_variant.sku
              created_at_ms := now
              expires_at_ms := now + s.intent_ttl_ms
              decision := none
              order := none
              status := IntentStatus.PENDING }
          let r : RegisterResponse := ⟨true, some iid, none, none⟩
          (r, { s with
                  intents := intent :: s.intents
                  seen := ((e.device_id, e.event_id), r) :: s.seen
                  next_intent_seq := s.next_intent_seq + 1 })
      else
        let r : RegisterResponse := ⟨false, none, none, none⟩
        (r, { s with seen := ((e.device_id, e.event_id), r) :: s.seen })

/-- Modelled from the spec: an order request handed to the Commerce Provider. -/
structure OrderRequest where
  sku : String
  quantity : Nat
  intent_id : String
deriving DecidableEq, Repr

/-- Modelled from the spec: outcome of `submit_order` — an order record, or a
transient / terminal provider failure signalled to the coordinator. -/
inductive CommerceOutcome where
  | ok (rec : OrderRecord)
  | transientFailure
  | terminalFailure
deriving DecidableEq, Repr

/-- Modelled from the spec: response body of `record_decision`. -/
structure DecisionResponse where
  status : IntentStatus
  order_id : Option String
deriving DecidableEq, Repr

instance {ε α : Type} [DecidableEq ε] [DecidableEq α] : DecidableEq (Except ε α) :=
  fun a b =>
    match a, b with
    | .error x, .error y =>
      if h : x = y then isTrue (by rw [h]) else
        isFalse (fun hc => h (by injection hc))
    | .error _, .ok _ => isFalse (fun hc => Except.noConfusion hc)
    | .ok _, .error _ => isFalse (fun hc => Except.noConfusion hc)
    | .ok x, .ok y =>
      if h : x = y then isTrue (by rw [h]) else
        isFalse (fun hc => h (by injection hc))

/-- The intent stored under an id, if any. -/
def findIntent (s : CoordState) (iid : String) : Option IntentState :=
  s.intents.find? (fun i => i.intent_id == iid)

/-- Replace the stored intent carrying `i.intent_id` by `i`. -/
def setIntent (s : CoordState) (i : IntentState) : CoordState :=
  { s with intents := s.intents.map (fun j => if j.intent_id == i.intent_id then i else j) }

/-- Intent status recorded from an order record's status. -/
def orderIntentStatus : OrderStatus → IntentStatus
  | .SUBMITTED => .ORDER_SUBMITTED
  | .CONFIRMED => .ORDER_CONFIRMED
  | .FAILED => .ORDER_FAILED

/-- Modelled from the spec: `record_decision(intent_id, channel, accepted,
decided_at_ms)` of the Intent Coordinator, which is absent from the repository
snapshot.  Checks, in order: unknown id fails `NotFound`; a non-`PENDING`
intent fails `AlreadyDecided`; `now > expires_at_ms` fails `Expired` and
transitions the intent to `EXPIRED`; a rejection transitions to `REJECTED`;
an acceptance transitions to `ACCEPTED`, calls the provider once with
`OrderRequest{sku, quantity:1, intent_id}`, and records the outcome —
`ORDER_FAILED` on provider failure while the call itself still succeeds.
The third component of the result lists the provider invocations made. -/
def record_decision (provider : OrderRequest → CommerceOutcome) (s : CoordState)
    (intent_id : String) (channel : Channel) (accepted : Bool)
    (decided_at_ms now : Nat) :
    Except DecisionError DecisionResponse × CoordState × List OrderRequest :=
  match findIntent s intent_id with
  | none => (Except.error DecisionError.NotFound, s, [])
  | some i =>
    if i.status ≠ IntentStatus.PENDING then
      (Except.error DecisionError.AlreadyDecided, s, [])
    else if i.expires_at_ms < now then
      (Except.error DecisionError.Expired,
        setIntent s { i with status := IntentStatus.EXPIRED }, [])
    else if accepted then
      match provider ⟨i.variant_sku, 1, i.intent_id⟩ with
      | .ok rec =>
        (Except.ok ⟨orderIntentStatus rec.status, some rec.order_id⟩,
          setIntent s { i with
                          status := orderIntentStatus rec.status
                          decision := some ⟨channel, accepted, decided_at_ms⟩
                          order := some rec },
          [⟨i.variant_sku, 1, i.intent_id⟩])
      | .transientFailure =>
        (Except.ok ⟨IntentStatus.ORDER_FAILED, none⟩,
          setIntent s { i with
                          status := IntentStatus.ORDER_FAILED
                          decision := some ⟨channel, accepted, decided_at_ms⟩ },
          [⟨i.variant_sku, 1, i.intent_id⟩])
      | .terminalFailure =>
        (Except.ok ⟨IntentStatus.ORDER_FAILED, none⟩,
          setIntent s { i with
                          status := IntentStatus.ORDER_FAILED
                          decision := some ⟨channel, accepted, decided_at_ms⟩ },
          [⟨i.variant_sku, 1, i.intent_id⟩])
    else
      (Except.ok ⟨IntentStatus.REJECTED, none⟩,
        setIntent s { i with
                        status := IntentStatus.REJECTED
                        decision := some ⟨channel, accepted, decided_at_ms⟩ }, [])

/-- One `register_detection` call of a trace. -/
def stepDetect (s : CoordState) (p : DetectionEvent × Nat) : CoordState :=
  (register_detection s p.1 p.2).2

/-- Fold a trace of timed detection events through the coordinator. -/
def runDetections (s : CoordState) (tr : List (DetectionEvent × Nat)) : CoordState :=
  tr.foldl stepDetect s

/-- At most one active intent exists per `(device_id, object_class)` key. -/
def atMostOneActive (s : CoordState) (now : Nat) : Prop :=
  ∀ i ∈ s.intents, ∀ j ∈ s.intents, isActive i now = true → isActive j now = true →
    i.device_id = j.device_id → i.object_class = j.object_class → i = j

instance (s : CoordState) (now : Nat) : Decidable (atMostOneActive s now) := by
  unfold atMostOneActive
  infer_instance

/-!
Embedding of the Lens Studio client helpers from
`lens-studio/Assets/Scripts/TS/VisionOpenAI.ts`.  JavaScript strings are
modelled as `List Char`.
-/

/-- The formatted conversation entry built at the top of `addToHistory`. -/
def historyEntry (userQuery response : List Char) : List Char :=
  String.toList "User: " ++ userQuery ++ String.toList "\nSnapAid: " ++ response
    ++ String.toList "\n"

/-- `VisionOpenAI.addToHistory`: push the formatted entry, then, when the
array exceeds `maxHistoryLength`, keep only the newest `maxHistoryLength`
entries via `slice(length - maxHistoryLength)`. -/
def addToHistory (maxHistoryLength : Nat) (chatHistory : List (List Char))
    (userQuery response : List Char) : List (List Char) :=
  let pushed := chatHistory ++ [historyEntry userQuery response]
  if maxHistoryLength < pushed.length then
    pushed.drop (pushed.length - maxHistoryLength)
  else
    pushed

/-- JavaScript `String.prototype.trim` on the characters of a string. -/
def trimChars (s : List Char) : List Char :=
  ((s.dropWhile Char.isWhitespace).reverse.dropWhile Char.isWhitespace).reverse

/-- `startsWith` on character lists. -/
def startsWithL (p s : List Char) : Bool :=
  List.isPrefixOf p s

/-- `endsWith` on character lists. -/
def endsWithL (p s : List Char) : Bool :=
  List.isSuffixOf p s

/-- JavaScript `substring(n)` on character lists. -/
def dropL (n : Nat) (s : List Char) : List Char :=
  s.drop n

/-- JavaScript `substring(0, length - n)` on character lists. -/
def dropRightL (n : Nat) (s : List Char) : List Char :=
  s.take (s.length - n)

/-- The default backend URL baked into `VisionOpenAI`. -/
def defaultBackendUrl : List Char :=
  String.toList "https://resorbent-alanna-semimoderately.ngrok-free.dev"

/-- The candidate-normalisation pipeline of `VisionOpenAI.getBackendUrl`:
trim, substitute the default for an empty value, prepend `https://` to a
value not starting with `http`, upgrade a leading `http://` to `https://`,
and strip one trailing slash. -/
def resolveBackendUrl (raw : List Char) : List Char :=
  let candidate := trimChars raw
  let candidate := if candidate.isEmpty then defaultBackendUrl else candidate
  let candidate :=
    if !(startsWithL (String.toList "http") candidate) then
      String.toList "https://" ++ candidate
    else candidate
  let candidate :=
    if startsWithL (String.toList "http://") candidate then
      String.toList "https://" ++ dropL 7 candidate
    else candidate
  if endsWithL (String.toList "/") candidate then dropRightL 1 candidate else candidate

/-- The fields of `VisionOpenAI` that `getBackendUrl` reads and writes. -/
structure VisionState where
  backendBaseUrl : List Char
  resolvedBaseUrl : Option (List Char)
deriving DecidableEq, Repr

/-- `VisionOpenAI.getBackendUrl`: return the cached `resolvedBaseUrl` when
present, otherwise normalise `backendBaseUrl` and cache the result. -/
def getBackendUrl (s : VisionState) : List Char × VisionState :=
  match s.resolvedBaseUrl with
  | some u => (u, s)
  | none =>
    let u := resolveBackendUrl s.backendBaseUrl
    (u, { s with resolvedBaseUrl := some u })

/-! ### Concrete fixtures used to evaluate the definitions -/

/-- A sample orderable variant. -/
def varEx : Variant := ⟨"sku-water-24", "Spring Water 24-pack", none⟩

/-- A sample catalog product with threshold `NEARLY_EMPTY`. -/
def prodEx : Product := ⟨"p1", "water_bottle", FillLevel.NEARLY_EMPTY, varEx, [varEx]⟩

/-- An initial coordinator store holding only the sample product, with the
default 15-minute TTL. -/
def sInit : CoordState := ⟨[prodEx], [], [], 900000, 0⟩

/-- A qualifying detection of an empty water bottle on device `d1`. -/
def e1 : DetectionEvent :=
  ⟨"ev1", "d1", "water_bottle", FillLevel.EMPTY, Confidence.HIGH, 5⟩

/-- A second qualifying detection for the same key with a fresh event id. -/
def e2 : DetectionEvent :=
  ⟨"ev2", "d1", "water_bottle", FillLevel.EMPTY, Confidence.HIGH, 15⟩

/-- The intent that registering `e1` at time 10 against `sInit` creates. -/
def intentEx : IntentState :=
  { intent_id := "intent-0"
    device_id := "d1"
    object_class := "water_bottle"
    product_id := "p1"
    variant_sku := "sku-water-24"
    created_at_ms := 10
    expires_at_ms := 900010
    decision := none
    order := none
    status := IntentStatus.PENDING }

/-- A store holding one rejected intent whose TTL has already lapsed. -/
def sRejectedExpired : CoordState :=
  ⟨[prodEx], [{ intentEx with status := IntentStatus.REJECTED, expires_at_ms := 5 }], [],
    900000, 1⟩

/-- The pending intent `intentEx` with its TTL already lapsed at time 10. -/
def intentExpired : IntentState := { intentEx with expires_at_ms := 5 }

/-- A store holding only the pending-but-expired intent. -/
def sPendingExpired : CoordState := ⟨[prodEx], [intentExpired], [], 900000, 1⟩

/-- A detection of a still-full water bottle — below the reorder threshold. -/
def eFull : DetectionEvent :=
  ⟨"ev3", "d1", "water_bottle", FillLevel.FULL, Confidence.HIGH, 6⟩

/-- A detection of an object class missing from the catalog. -/
def eUnk : DetectionEvent :=
  ⟨"ev4", "d1", "toothbrush", FillLevel.EMPTY, Confidence.HIGH, 6⟩

/-- A component state whose configured URL is exactly `http://`. -/
def vHttpOnly : VisionState := ⟨String.toList "http://", none⟩

/-- A component state whose configured URL is whitespace only. -/
def vWhitespace : VisionState := ⟨String.toList "   ", none⟩

/-- A component state with an insecure `http://` URL to be upgraded. -/
def vHttpExample : VisionState := ⟨String.toList "http://example.com/", none⟩

/-- A store holding the pending intent `intentEx`. -/
def sPending : CoordState := ⟨[prodEx], [intentEx], [], 900000, 1⟩

/-- A commerce provider stub that always fails terminally. -/
def provFail : OrderRequest → CommerceOutcome := fun _ => CommerceOutcome.terminalFailure

/-- A commerce provider stub that always confirms. -/
def provOk : OrderRequest → CommerceOutcome := fun req =>
  CommerceOutcome.ok ⟨"order-1", req.intent_id, req.sku, req.quantity,
    OrderStatus.CONFIRMED, some "vendor-1", 20⟩

/-! ### Helper lemmas about the coordinator -/

/-- Activity is downward closed in time: an intent active at a later instant
was active at any earlier one. -/
theorem isActive_mono {a b : Nat} (i : IntentState) (hab : a ≤ b)
    (h : isActive i b = true) : isActive i a = true := by
  unfold isActive at h ⊢
  simp only [Bool.and_eq_true, Bool.or_eq_true, decide_eq_true_eq] at h ⊢
  obtain ⟨h1, h2⟩ := h
  refine ⟨h1, ?_⟩
  rcases h2 with h2 | h2
  · exact Or.inl h2
  · exact Or.inr (le_trans hab h2)

/-- Key-exclusivity is preserved as time advances. -/
theorem atMostOneActive_mono {a b : Nat} (s : CoordState) (hab : a ≤ b)
    (h : atMostOneActive s a) : atMostOneActive s b :=
  fun i hi j hj hai haj =>
    h i hi j hj (isActive_mono i hab hai) (isActive_mono j hab haj)

/-- A single `register_detection` call preserves key-exclusivity of active
intents, evaluated at the call's own time. -/
theorem register_preserves_atMostOneActive (s : CoordState) (e : DetectionEvent)
    (now : Nat) (h : atMostOneActive s now) :
    atMostOneActive (register_detection s e now).2 now := by
  unfold register_detection
  split
  · exact h
  · split
    · exact h
    · split
      · split
        · exact h
        · next p hseen hlook hth hact =>
          intro i hi j hj hai haj hdev hoc
          rcases List.mem_cons.mp hi with hi | hi <;>
            rcases List.mem_cons.mp hj with hj | hj
          · rw [hi, hj]
          · exfalso
            have hnone := List.find?_eq_none.mp hact j hj
            apply hnone
            subst hi
            simp only at hdev hoc
            simp [← hdev, ← hoc, haj]
          · exfalso
            have hnone := List.find?_eq_none.mp hact i hi
            apply hnone
            subst hj
            simp only at hdev hoc
            simp [hdev, hoc, hai]
          · exact h i hi j hj hai haj hdev hoc
      · exact h

/-- Key-exclusivity holds after any monotonically timed trace of
`register_detection` calls, at any observation instant past the trace. -/
theorem runDetections_atMostOneActive :
    ∀ (tr : List (DetectionEvent × Nat)) (s : CoordState) (now0 now' : Nat),
      atMostOneActive s now0 →
      List.Chain (fun a b => a ≤ b) now0 (tr.map Prod.snd ++ [now']) →
      atMostOneActive (runDetections s tr) now' := by
  intro tr
  induction tr with
  | nil =>
    intro s now0 now' h hch
    simp only [List.map_nil, List.nil_append] at hch
    cases hch with
    | cons h1 _ => exact atMostOneActive_mono s h1 h
  | cons p tl ih =>
    intro s now0 now' h hch
    simp only [List.map_cons, List.cons_append] at hch
    cases hch with
    | cons h1 h2 =>
      exact ih (stepDetect s p) p.2 now'
        (register_preserves_atMostOneActive s p.1 p.2 (atMostOneActive_mono s h1 h))
        h2

/-- After any `register_detection` call the dedup cache holds the response
that the call returned, under the event's `(device_id, event_id)` key. -/
theorem register_seen_cache (s : CoordState) (e : DetectionEvent) (now : Nat) :
    findSeen (register_detection s e now).2.seen e.device_id e.event_id =
      some (register_detection s e now).1 := by
  unfold register_detection
  split
  · next r hseen => exact hseen
  · split
    · simp [findSeen]
    · split
      · split
        · simp [findSeen]
        · simp [findSeen]
      · simp [findSeen]

/-- A fresh, catalog-qualifying detection arriving while an intent is active
at its key is suppressed: the response carries `should_prompt = false`, the
existing intent's id and the remaining TTL, and no intent is created. -/
theorem register_suppresses (s : CoordState) (e : DetectionEvent) (now : Nat)
    (p : Product) (i : IntentState)
    (hfresh : findSeen s.seen e.device_id e.event_id = none)
    (hlook : lookupProduct s.catalog e.object_class = some p)
    (hth : meets_threshold p.reorder_threshold e.fill_level = true)
    (hact : findActive s.intents e.device_id e.object_class now = some i) :
    (register_detection s e now).1 =
      ⟨false, some i.intent_id, some ((i.expires_at_ms : Int) - (now : Int)), none⟩ ∧
    (register_detection s e now).2.intents = s.intents := by
  unfold register_detection
  rw [hfresh, hlook]
  simp [hth, hact]

/-- Updating the stored intent found under an id makes a subsequent lookup of
that id return the update, provided the update keeps the id. -/
theorem find?_update (l : List IntentState) (iid : String) (i i' : IntentState)
    (hf : l.find? (fun j => j.intent_id == iid) = some i)
    (hid : i'.intent_id = i.intent_id) :
    (l.map (fun j => if j.intent_id == i'.intent_id then i' else j)).find?
      (fun j => j.intent_id == iid) = some i' := by
  have hiid : i.intent_id = iid := by
    have := List.find?_some hf
    simpa using this
  induction l with
  | nil => simp at hf
  | cons a l ih =>
    by_cases ha : a.intent_id = iid
    · have ha' : (a.intent_id == iid) = true := by simp [ha]
      have haa : a = i := by
        simp only [List.find?, ha'] at hf
        injection hf
      subst haa
      have hc : (a.intent_id == i'.intent_id) = true := by simp [hid]
      have hp : (i'.intent_id == iid) = true := by simp [hid, hiid]
      simp only [List.map_cons, hc, eq_self_iff_true, if_true, List.find?, hp]
    · have ha' : (a.intent_id == iid) = false := by simp [ha]
      have hc : (a.intent_id == i'.intent_id) = false := by simp [hid, hiid, ha]
      simp only [List.find?, ha'] at hf
      simp only [List.map_cons, hc, Bool.false_eq_true, if_false, List.find?, ha']
      exact ih hf

/-- `setIntent` version of `find?_update`. -/
theorem findIntent_setIntent (s : CoordState) (iid : String) (i i' : IntentState)
    (hf : findIntent s iid = some i) (hid : i'.intent_id = i.intent_id) :
    findIntent (setIntent s i') iid = some i' := by
  unfold findIntent setIntent
  exact find?_update s.intents iid i i' hf hid

/-- A decision on an intent that is no longer `PENDING` fails with
`AlreadyDecided`, changes nothing, and invokes the provider zero times. -/
theorem record_decision_already_decided
    (prov : OrderRequest → CommerceOutcome) (s : CoordState) (iid : String)
    (ch : Channel) (acc : Bool) (t now : Nat) (i : IntentState)
    (hfind : findIntent s iid = some i) (hstat : i.status ≠ IntentStatus.PENDING) :
    record_decision prov s iid ch acc t now =
      (Except.error DecisionError.AlreadyDecided, s, []) := by
  unfold record_decision
  rw [hfind]
  simp [hstat]

/-! ### Claim theorems -/

/-- C1 counterexample: the claim "while one intent is active, every further
`register_detection` for that key returns `should_prompt=false`" fails as
stated.  Registering `e1` at time 10 creates an intent and prompts; at time 20
that intent is still active at the key `("d1", "water_bottle")`, yet a
retried delivery of `e1` — a further `register_detection` call for that key —
returns its cached response with `should_prompt = true`, not `false`. -/
theorem register_detection_replay_reprompts :
    (register_detection sInit e1 10).1.should_prompt = true ∧
    (findActive (register_detection sInit e1 10).2.intents "d1" "water_bottle" 20).isSome
      = true ∧
    (register_detection (register_detection sInit e1 10).2 e1 20).1.should_prompt = true := by
  decide

/-- C1 (amended): over any monotonically timed sequence of
`register_detection` calls from a store satisfying key-exclusivity, at most
one active (non-terminal, non-expired) intent exists per
`(device_id, object_class)` key at every observation instant; and while one
is active, every further `register_detection` for that key delivering a fresh
(unseen) event that passes catalog lookup and the reorder threshold returns
`should_prompt=false` together with the existing `intent_id`, creating no new
intent — so exactly one call creates a new intent, though replayed deliveries
of the creating event return their cached prompting response. -/
theorem register_detection_no_double_prompt
    (s0 : CoordState) (now0 : Nat) (tr : List (DetectionEvent × Nat)) (now' : Nat)
    (hinv : atMostOneActive s0 now0)
    (hmono : List.Chain (fun a b => a ≤ b) now0 (tr.map Prod.snd ++ [now'])) :
    atMostOneActive (runDetections s0 tr) now' ∧
    (∀ (e : DetectionEvent) (p : Product) (i : IntentState),
      findSeen (runDetections s0 tr).seen e.device_id e.event_id = none →
      lookupProduct (runDetections s0 tr).catalog e.object_class = some p →
      meets_threshold p.reorder_threshold e.fill_level = true →
      findActive (runDetections s0 tr).intents e.device_id e.object_class now' = some i →
      (register_detection (runDetections s0 tr) e now').1 =
        ⟨false, some i.intent_id, some ((i.expires_at_ms : Int) - (now' : Int)), none⟩ ∧
      (register_detection (runDetections s0 tr) e now').2.intents =
        (runDetections s0 tr).intents) :=
  ⟨runDetections_atMostOneActive tr s0 now0 now' hinv hmono,
   fun e p i h1 h2 h3 h4 => register_suppresses _ e now' p i h1 h2 h3 h4⟩

/-- C1 witness: the amended claim evaluated on a concrete trace — one
qualifying detection at time 10 — observed at time 20 with a fresh second
detection for the same key. -/
theorem register_detection_no_double_prompt_witness :
    atMostOneActive (runDetections sInit [(e1, 10)]) 20 ∧
    (register_detection (runDetections sInit [(e1, 10)]) e2 20).1 =
      ⟨false, some intentEx.intent_id,
        some ((intentEx.expires_at_ms : Int) - (20 : Int)), none⟩ :=
  have h := register_detection_no_double_prompt sInit 0 [(e1, 10)] 20
    (by decide)
    (List.Chain.cons (by decide) (List.Chain.cons (by decide) List.Chain.nil))
  ⟨h.1, (h.2 e2 prodEx intentEx (by decide) (by decide) (by decide) (by decide)).1⟩

/-- C2: `register_detection` is idempotent in the event id — after any call,
redelivering an event with the same `(device_id, event_id)` leaves the store
unchanged (in particular no second intent is created) and returns exactly the
response of the first delivery. -/
theorem register_detection_idempotent_event_id
    (s : CoordState) (e er : DetectionEvent) (now now2 : Nat)
    (hd : er.device_id = e.device_id) (he : er.event_id = e.event_id) :
    register_detection (register_detection s e now).2 er now2 =
      ((register_detection s e now).1, (register_detection s e now).2) := by
  have hc := register_seen_cache s e now
  generalize hpr : register_detection s e now = pr at *
  obtain ⟨r, s'⟩ := pr
  show register_detection s' er now2 = (r, s')
  unfold register_detection
  rw [hd, he, hc]

/-- C2 witness: replaying the detection `e1` after it created an intent
returns the original response and the unchanged store. -/
theorem register_detection_idempotent_event_id_witness :
    register_detection (register_detection sInit e1 10).2 e1 20 =
      ((register_detection sInit e1 10).1, (register_detection sInit e1 10).2) :=
  register_detection_idempotent_event_id sInit e1 e1 10 20 rfl rfl

/-- C3: a decision is recorded at most once.  Whenever a `record_decision`
call succeeds — whether it accepted or rejected — a second `record_decision`
call with the same `intent_id` fails with `AlreadyDecided`, leaves the store
unchanged, and invokes the Commerce Provider zero times. -/
theorem record_decision_exactly_once
    (prov prov2 : OrderRequest → CommerceOutcome) (s : CoordState) (iid : String)
    (ch ch2 : Channel) (acc acc2 : Bool) (t t2 now now2 : Nat)
    (r : DecisionResponse) (s' : CoordState) (reqs : List OrderRequest)
    (h : record_decision prov s iid ch acc t now = (Except.ok r, s', reqs)) :
    record_decision prov2 s' iid ch2 acc2 t2 now2 =
      (Except.error DecisionError.AlreadyDecided, s', []) := by
  unfold record_decision at h
  cases hfind : findIntent s iid with
  | none =>
    rw [hfind] at h
    simp at h
  | some i =>
    rw [hfind] at h
    by_cases hstat : i.status = IntentStatus.PENDING
    · simp only [hstat, ne_eq, not_true_eq_false, if_false, reduceCtorEq] at h
      by_cases hexp : i.expires_at_ms < now
      · simp [hexp] at h
      · simp only [hexp, if_false] at h
        by_cases hacc : acc = true
        · rw [hacc] at h
          simp only [if_true] at h
          cases hprov : prov ⟨i.variant_sku, 1, i.intent_id⟩ with
          | ok rec =>
            rw [hprov] at h
            simp only [Prod.mk.injEq] at h
            obtain ⟨-, h2, -⟩ := h
            subst h2
            refine record_decision_already_decided prov2 _ iid ch2 acc2 t2 now2 _
              (findIntent_setIntent s iid i _ hfind rfl) ?_
            cases rec.status <;> simp [orderIntentStatus]
          | transientFailure =>
            rw [hprov] at h
            simp only [Prod.mk.injEq] at h
            obtain ⟨-, h2, -⟩ := h
            subst h2
            exact record_decision_already_decided prov2 _ iid ch2 acc2 t2 now2 _
              (findIntent_setIntent s iid i _ hfind rfl) (by simp)
          | terminalFailure =>
            rw [hprov] at h
            simp only [Prod.mk.injEq] at h
            obtain ⟨-, h2, -⟩ := h
            subst h2
            exact record_decision_already_decided prov2 _ iid ch2 acc2 t2 now2 _
              (findIntent_setIntent s iid i _ hfind rfl) (by simp)
        · rw [if_neg hacc] at h
          simp only [Prod.mk.injEq] at h
          obtain ⟨-, h2, -⟩ := h
          subst h2
          exact record_decision_already_decided prov2 _ iid ch2 acc2 t2 now2 _
            (findIntent_setIntent s iid i _ hfind rfl) (by simp)
    · simp [hstat] at h

/-- C3 witness: after accepting intent `intent-0` (which confirms an order),
a second decision on the same intent is rejected with `AlreadyDecided` and no
provider call. -/
theorem record_decision_exactly_once_witness :
    record_decision provFail
        (record_decision provOk sPending "intent-0" Channel.GESTURE true 100 50).2.1
        "intent-0" Channel.VOICE false 101 51 =
      (Except.error DecisionError.AlreadyDecided,
        (record_decision provOk sPending "intent-0" Channel.GESTURE true 100 50).2.1,
        []) :=
  record_decision_exactly_once provOk provFail sPending "intent-0" Channel.GESTURE
    Channel.VOICE true false 100 101 50 51
    ⟨IntentStatus.ORDER_CONFIRMED, some "order-1"⟩
    (record_decision provOk sPending "intent-0" Channel.GESTURE true 100 50).2.1
    [⟨"sku-water-24", 1, "intent-0"⟩]
    (by rfl)

/-- C4 counterexample: the claim fails for an intent that is both decided and
expired.  `sRejectedExpired` stores intent `intent-0` with status `REJECTED`
and `expires_at_ms = 5 < 10 = now`, yet `record_decision` at time 10 fails
with `AlreadyDecided` — not `Expired` — and the intent keeps status
`REJECTED` rather than transitioning to `EXPIRED`. -/
theorem record_decision_expired_shadowed_by_already_decided :
    findIntent sRejectedExpired "intent-0" =
      some { intentEx with status := IntentStatus.REJECTED, expires_at_ms := 5 } ∧
    (5 : Nat) < 10 ∧
    record_decision provOk sRejectedExpired "intent-0" Channel.VOICE true 0 10 =
      (Except.error DecisionError.AlreadyDecided, sRejectedExpired, []) ∧
    DecisionError.AlreadyDecided ≠ DecisionError.Expired := by
  decide

/-- C4 (amended): for every still-`PENDING` intent whose `expires_at_ms` is
earlier than the current time, `record_decision` fails with `Expired`,
transitions the intent to `EXPIRED` as its only side effect, creates no
`OrderRecord` (the intent's `order` field is untouched and the provider is
invoked zero times), even when the decision was `accepted=true`.  (An intent
that already left `PENDING` instead fails `AlreadyDecided`.) -/
theorem record_decision_expired
    (prov : OrderRequest → CommerceOutcome) (s : CoordState) (iid : String)
    (ch : Channel) (acc : Bool) (t now : Nat) (i : IntentState)
    (hfind : findIntent s iid = some i) (hstat : i.status = IntentStatus.PENDING)
    (hexp : i.expires_at_ms < now) :
    record_decision prov s iid ch acc t now =
      (Except.error DecisionError.Expired,
        setIntent s { i with status := IntentStatus.EXPIRED }, []) ∧
    ({ i with status := IntentStatus.EXPIRED } : IntentState).order = i.order := by
  refine ⟨?_, rfl⟩
  unfold record_decision
  rw [hfind]
  simp [hstat, hexp]

/-- C4 witness: the amended claim evaluated on the concrete pending intent
whose TTL lapsed at 5, decided (accepted) at time 10. -/
theorem record_decision_expired_witness :
    (record_decision provOk sPendingExpired "intent-0" Channel.VOICE true 0 10 =
      (Except.error DecisionError.Expired,
        setIntent sPendingExpired { intentExpired with status := IntentStatus.EXPIRED },
        []) ∧
    ({ intentExpired with status := IntentStatus.EXPIRED } : IntentState).order =
      intentExpired.order) :=
  record_decision_expired provOk sPendingExpired "intent-0" Channel.VOICE true 0 10
    intentExpired (by decide) (by decide) (by decide)

/-- C5: prompt qualification is the per-product threshold on the ordered
fill-level scale — `meets_threshold` is true exactly when both levels are on
the scale and the fill level is at or past the threshold (ties qualify) —
and a fresh detection whose fill level does not meet the matched product's
threshold yields `should_prompt=false` with no intent created. -/
theorem meets_threshold_gates_prompt :
    (∀ th fl : FillLevel, meets_threshold th fl = true ↔
      ∃ a b : Nat, fillRank th = some a ∧ fillRank fl = some b ∧ a ≤ b) ∧
    (∀ (s : CoordState) (e : DetectionEvent) (now : Nat) (p : Product),
      findSeen s.seen e.device_id e.event_id = none →
      lookupProduct s.catalog e.object_class = some p →
      meets_threshold p.reorder_threshold e.fill_level = false →
      (register_detection s e now).1 = ⟨false, none, none, none⟩ ∧
      (register_detection s e now).2.intents = s.intents) := by
  constructor
  · intro th fl
    unfold meets_threshold
    cases hth : fillRank th <;> cases hfl : fillRank fl <;> simp
  · intro s e now p h1 h2 h3
    unfold register_detection
    rw [h1, h2]
    simp [h3]

/-- C5 witness: a tie at `NEARLY_EMPTY` qualifies, and the concrete `FULL`
detection `eFull` is suppressed without an intent. -/
theorem meets_threshold_gates_prompt_witness :
    (meets_threshold FillLevel.NEARLY_EMPTY FillLevel.NEARLY_EMPTY = true ↔
      ∃ a b : Nat, fillRank FillLevel.NEARLY_EMPTY = some a ∧
        fillRank FillLevel.NEARLY_EMPTY = some b ∧ a ≤ b) ∧
    ((register_detection sInit eFull 7).1 = ⟨false, none, none, none⟩ ∧
     (register_detection sInit eFull 7).2.intents = sInit.intents) :=
  ⟨meets_threshold_gates_prompt.1 FillLevel.NEARLY_EMPTY FillLevel.NEARLY_EMPTY,
   meets_threshold_gates_prompt.2 sInit eFull 7 prodEx rfl (by decide) (by decide)⟩

/-- C6: failures are values, never crashes — both operations are total Lean
functions, and in particular a fresh detection whose `object_class` has no
catalog entry returns `should_prompt=false` carrying the `UnknownProduct`
domain error with no intent created, while a decision on an unknown intent id
returns the `NotFound` error value with the store untouched and zero provider
calls. -/
theorem unknown_product_fails_as_value :
    (∀ (s : CoordState) (e : DetectionEvent) (now : Nat),
      findSeen s.seen e.device_id e.event_id = none →
      lookupProduct s.catalog e.object_class = none →
      (register_detection s e now).1 =
        ⟨false, none, none, some DomainError.UnknownProduct⟩ ∧
      (register_detection s e now).2.intents = s.intents) ∧
    (∀ (prov : OrderRequest → CommerceOutcome) (s : CoordState) (iid : String)
       (ch : Channel) (acc : Bool) (t now : Nat),
      findIntent s iid = none →
      record_decision prov s iid ch acc t now =
        (Except.error DecisionError.NotFound, s, [])) := by
  constructor
  · intro s e now h1 h2
    unfold register_detection
    rw [h1, h2]
    exact ⟨rfl, rfl⟩
  · intro prov s iid ch acc t now h
    unfold record_decision
    rw [h]

/-- C6 witness: the unknown-class detection `eUnk` and an unknown intent id,
both on concrete stores. -/
theorem unknown_product_fails_as_value_witness :
    ((register_detection sInit eUnk 7).1 =
        ⟨false, none, none, some DomainError.UnknownProduct⟩ ∧
      (register_detection sInit eUnk 7).2.intents = sInit.intents) ∧
    record_decision provOk sInit "missing" Channel.VOICE true 0 1 =
      (Except.error DecisionError.NotFound, sInit, []) :=
  ⟨unknown_product_fails_as_value.1 sInit eUnk 7 rfl (by decide),
   unknown_product_fails_as_value.2 provOk sInit "missing" Channel.VOICE true 0 1
     (by decide)⟩

/-- C7: the coordinator never resubmits an order — any single
`record_decision` call invokes `submit_order` at most once — and when the
provider fails on an accepted decision, the intent is recorded as
`ORDER_FAILED`, the decision-recording call itself still returns success
(`Except.ok`), and exactly one submission was attempted. -/
theorem commerce_failure_no_retry :
    (∀ (prov : OrderRequest → CommerceOutcome) (s : CoordState) (iid : String)
       (ch : Channel) (acc : Bool) (t now : Nat),
      (record_decision prov s iid ch acc t now).2.2.length ≤ 1) ∧
    (∀ (prov : OrderRequest → CommerceOutcome) (s : CoordState) (iid : String)
       (ch : Channel) (t now : Nat) (i : IntentState),
      findIntent s iid = some i → i.status = IntentStatus.PENDING →
      ¬ i.expires_at_ms < now →
      (prov ⟨i.variant_sku, 1, i.intent_id⟩ = CommerceOutcome.transientFailure ∨
        prov ⟨i.variant_sku, 1, i.intent_id⟩ = CommerceOutcome.terminalFailure) →
      record_decision prov s iid ch true t now =
        (Except.ok ⟨IntentStatus.ORDER_FAILED, none⟩,
          setIntent s { i with
                          status := IntentStatus.ORDER_FAILED
                          decision := some ⟨ch, true, t⟩ },
          [⟨i.variant_sku, 1, i.intent_id⟩])) := by
  constructor
  · intro prov s iid ch acc t now
    unfold record_decision
    split
    · simp
    · split
      · simp
      · split
        · simp
        · split
          · split <;> simp
          · simp
  · intro prov s iid ch t now i hfind hstat hexp hfail
    unfold record_decision
    rw [hfind]
    rcases hfail with hP | hP <;> simp [hstat, hexp, hP]

/-- C7 witness: accepting the pending intent against the always-failing
provider records `ORDER_FAILED`, succeeds, and submits exactly once; the
at-most-once bound instantiated at the same call. -/
theorem commerce_failure_no_retry_witness :
    (record_decision provFail sPending "intent-0" Channel.VOICE true 100 50).2.2.length
      ≤ 1 ∧
    record_decision provFail sPending "intent-0" Channel.VOICE true 100 50 =
      (Except.ok ⟨IntentStatus.ORDER_FAILED, none⟩,
        setIntent sPending { intentEx with
                               status := IntentStatus.ORDER_FAILED
                               decision := some ⟨Channel.VOICE, true, 100⟩ },
        [⟨"sku-water-24", 1, "intent-0"⟩]) :=
  ⟨commerce_failure_no_retry.1 provFail sPending "intent-0" Channel.VOICE true 100 50,
   commerce_failure_no_retry.2 provFail sPending "intent-0" Channel.VOICE 100 50
     intentEx (by decide) (by decide) (by decide) (Or.inr (by decide))⟩

/-- C8: every order submitted for an accepted prompt carries quantity exactly
1 — for any provider behaviour, accepting a live pending intent hands the
Commerce Provider exactly one `OrderRequest` with `quantity = 1` and the
`sku` and `intent_id` of the accepted intent. -/
theorem accepted_decision_orders_quantity_one
    (prov : OrderRequest → CommerceOutcome) (s : CoordState) (iid : String)
    (ch : Channel) (t now : Nat) (i : IntentState)
    (hfind : findIntent s iid = some i) (hstat : i.status = IntentStatus.PENDING)
    (hexp : ¬ i.expires_at_ms < now) :
    (record_decision prov s iid ch true t now).2.2 =
      [⟨i.variant_sku, 1, i.intent_id⟩] := by
  unfold record_decision
  rw [hfind]
  cases hprov : prov ⟨i.variant_sku, 1, i.intent_id⟩ <;> simp [hstat, hexp, hprov]

/-- C8 witness: the accepted concrete decision submits exactly
`[{sku := "sku-water-24", quantity := 1, intent_id := "intent-0"}]`. -/
theorem accepted_decision_orders_quantity_one_witness :
    (record_decision provOk sPending "intent-0" Channel.GESTURE true 100 50).2.2 =
      [⟨"sku-water-24", 1, "intent-0"⟩] :=
  accepted_decision_orders_quantity_one provOk sPending "intent-0" Channel.GESTURE
    100 50 intentEx (by decide) (by decide) (by decide)

/-- C9: the chat history is bounded — after every `addToHistory` call (with a
positive configured bound) the array holds at most `maxHistoryLength`
entries, the result is a suffix of the pushed history (oldest entries are
dropped, recent ones kept in order), and the entry just added is its last
element. -/
theorem addToHistory_bounded
    (maxHistoryLength : Nat) (chatHistory : List (List Char))
    (userQuery response : List Char) (hmax : 1 ≤ maxHistoryLength) :
    (addToHistory maxHistoryLength chatHistory userQuery response).length ≤
      maxHistoryLength ∧
    (addToHistory maxHistoryLength chatHistory userQuery response) <:+
      chatHistory ++ [historyEntry userQuery response] ∧
    (addToHistory maxHistoryLength chatHistory userQuery response).getLast? =
      some (historyEntry userQuery response) := by
  unfold addToHistory
  by_cases h :
      maxHistoryLength < (chatHistory ++ [historyEntry userQuery response]).length
  · rw [if_pos h]
    have hlen :
        ((chatHistory ++ [historyEntry userQuery response]).drop
          ((chatHistory ++ [historyEntry userQuery response]).length -
            maxHistoryLength)).length = maxHistoryLength := by
      rw [List.length_drop]
      omega
    refine ⟨le_of_eq hlen, List.drop_suffix _ _, ?_⟩
    have hne :
        (chatHistory ++ [historyEntry userQuery response]).drop
          ((chatHistory ++ [historyEntry userQuery response]).length -
            maxHistoryLength) ≠ [] := by
      intro hnil
      rw [hnil] at hlen
      simp only [List.length_nil] at hlen
      omega
    calc ((chatHistory ++ [historyEntry userQuery response]).drop
            ((chatHistory ++ [historyEntry userQuery response]).length -
              maxHistoryLength)).getLast?
        = ((chatHistory ++ [historyEntry userQuery response]).take
              ((chatHistory ++ [historyEntry userQuery response]).length -
                maxHistoryLength) ++
            (chatHistory ++ [historyEntry userQuery response]).drop
              ((chatHistory ++ [historyEntry userQuery response]).length -
                maxHistoryLength)).getLast? :=
          (List.getLast?_append_of_ne_nil _ hne).symm
      _ = (chatHistory ++ [historyEntry userQuery response]).getLast? := by
          rw [List.take_append_drop]
      _ = some (historyEntry userQuery response) := List.getLast?_concat _
  · rw [if_neg h]
    push_neg at h
    exact ⟨h, List.suffix_refl _, List.getLast?_concat _⟩

/-- C9 witness: pushing onto a two-entry history with bound 2 keeps the two
most recent entries in order, ending with the entry just added. -/
theorem addToHistory_bounded_witness :
    (addToHistory 2 [String.toList "x", String.toList "y"] (String.toList "q")
        (String.toList "r")).length ≤ 2 ∧
    (addToHistory 2 [String.toList "x", String.toList "y"] (String.toList "q")
        (String.toList "r")) <:+
      [String.toList "x", String.toList "y"] ++
        [historyEntry (String.toList "q") (String.toList "r")] ∧
    (addToHistory 2 [String.toList "x", String.toList "y"] (String.toList "q")
        (String.toList "r")).getLast? =
      some (historyEntry (String.toList "q") (String.toList "r")) :=
  addToHistory_bounded 2 [String.toList "x", String.toList "y"]
    (String.toList "q") (String.toList "r") (by decide)

/-- C10 counterexample: the claim "a value beginning with `http://` is
rewritten to begin with `https://`" fails for the value `http://` itself.
The pipeline rewrites it to `https://`, but the trailing-slash trimming then
leaves `https:/`, which does not begin with `https://`. -/
theorem getBackendUrl_bare_http_not_upgraded :
    startsWithL (String.toList "http://") vHttpOnly.backendBaseUrl = true ∧
    (getBackendUrl vHttpOnly).1 = String.toList "https:/" ∧
    startsWithL (String.toList "https://") (getBackendUrl vHttpOnly).1 = false := by
  decide

/-- C10 (amended): the backend URL is computed once and then frozen — after
any `getBackendUrl` call, later calls return the identical string even when
`backendBaseUrl` is changed; on a first call an empty or whitespace-only
`backendBaseUrl` resolves to the built-in default URL; and a first-call value
that begins with `http://` followed by at least one further character
resolves to a string beginning with `https://` (the bare value `http://`
instead resolves to `https:/` after trailing-slash trimming). -/
theorem getBackendUrl_caches_and_normalises :
    (∀ (s : VisionState) (u : List Char) (s' : VisionState),
      getBackendUrl s = (u, s') → ∀ raw : List Char,
      getBackendUrl { s' with backendBaseUrl := raw } =
        (u, { s' with backendBaseUrl := raw })) ∧
    (∀ s : VisionState, s.resolvedBaseUrl = none →
      trimChars s.backendBaseUrl = [] →
      (getBackendUrl s).1 = defaultBackendUrl) ∧
    (∀ (s : VisionState) (rest : List Char), s.resolvedBaseUrl = none →
      trimChars s.backendBaseUrl = String.toList "http://" ++ rest → rest ≠ [] →
      startsWithL (String.toList "https://") (getBackendUrl s).1 = true) := by
  refine ⟨?_, ?_, ?_⟩
  · intro s u s' h raw
    unfold getBackendUrl at h ⊢
    cases hres : s.resolvedBaseUrl with
    | some u0 =>
      rw [hres] at h
      obtain ⟨h1, h2⟩ := Prod.mk.injEq .. ▸ h
      subst h1
      subst h2
      simp [hres]
    | none =>
      rw [hres] at h
      dsimp only at h
      obtain ⟨h1, h2⟩ := Prod.mk.injEq .. ▸ h
      subst h1
      subst h2
      simp
  · intro s hres htrim
    unfold getBackendUrl
    rw [hres]
    dsimp only
    unfold resolveBackendUrl
    rw [htrim]
    rfl
  · intro s rest hres htrim hne
    unfold getBackendUrl
    rw [hres]
    dsimp only
    unfold resolveBackendUrl
    rw [htrim]
    have hemp : (String.toList "http://" ++ rest).isEmpty = false := rfl
    have hpre : startsWithL (String.toList "http") (String.toList "http://" ++ rest)
        = true := by
      unfold startsWithL
      refine List.isPrefixOf_iff_prefix.mpr ?_
      have hsplit : String.toList "http://" =
          String.toList "http" ++ String.toList "://" := rfl
      rw [hsplit, List.append_assoc]
      exact List.prefix_append _ _
    have hpre2 : startsWithL (String.toList "http://")
        (String.toList "http://" ++ rest) = true := by
      unfold startsWithL
      exact List.isPrefixOf_iff_prefix.mpr (List.prefix_append _ _)
    have hdrop : dropL 7 (String.toList "http://" ++ rest) = rest := by
      unfold dropL
      have h7 : (String.toList "http://").length = 7 := rfl
      rw [← h7, List.drop_left]
    simp only [hemp, Bool.false_eq_true, if_false, hpre, Bool.not_true, hpre2,
      if_true, hdrop]
    by_cases hend : endsWithL (String.toList "/") (String.toList "https://" ++ rest)
        = true
    · rw [if_pos hend]
      unfold startsWithL dropRightL
      refine List.isPrefixOf_iff_prefix.mpr (List.prefix_take_iff.mpr
        ⟨List.prefix_append _ _, ?_⟩)
      have h8 : (String.toList "https://").length = 8 := rfl
      have hr : 1 ≤ rest.length := by
        cases rest with
        | nil => exact absurd rfl hne
        | cons a l => simp
      rw [List.length_append, h8]
      omega
    · rw [if_neg hend]
      unfold startsWithL
      exact List.isPrefixOf_iff_prefix.mpr (List.prefix_append _ _)

/-- C10 witness: the amended claim on concrete states — a whitespace-only URL
resolves to the default and stays frozen after `backendBaseUrl` changes, and
`http://example.com/` resolves to a string beginning with `https://`. -/
theorem getBackendUrl_caches_and_normalises_witness :
    getBackendUrl { (getBackendUrl vWhitespace).2 with
        backendBaseUrl := String.toList "http://other" } =
      ((getBackendUrl vWhitespace).1,
        { (getBackendUrl vWhitespace).2 with
            backendBaseUrl := String.toList "http://other" }) ∧
    (getBackendUrl vWhitespace).1 = defaultBackendUrl ∧
    startsWithL (String.toList "https://") (getBackendUrl vHttpExample).1 = true :=
  ⟨getBackendUrl_caches_and_normalises.1 vWhitespace (getBackendUrl vWhitespace).1
      (getBackendUrl vWhitespace).2 rfl (String.toList "http://other"),
    getBackendUrl_caches_and_normalises.2.1 vWhitespace rfl (by decide),
    getBackendUrl_caches_and_normalises.2.2 vHttpExample
      (String.toList "example.com/") rfl (by decide) (by decide)⟩
